import Mathlib

/-!
Shallow embedding of `scrape.py`: a session-authenticated Discourse scraper
that lists topics from a paginated category endpoint, filters them by an
inclusive creation-date range, fetches each selected topic's post stream,
normalizes the posts, and emits per-topic files, a combined file and a run
summary.

The external collaborators (browser transport, HTML-to-text conversion,
filesystem) are modelled as inputs: the pages returned by the listing
endpoint, a map from topic-detail URLs to parsed detail payloads, and the
text-cleaning function.  File writes are recorded as values in the run
result.  A `none` result of the run models an uncaught Python exception
(the run aborts).
-/

/-- A Python `datetime` value as produced by `datetime.strptime`
(naive, i.e. without timezone information). -/
structure PyDateTime where
  year : Nat
  month : Nat
  day : Nat
  hour : Nat
  minute : Nat
  second : Nat
  microsecond : Nat
deriving DecidableEq

/-- Python `datetime` ordering: lexicographic on the seven components. -/
def PyDateTime.le (a b : PyDateTime) : Bool :=
  if a.year ≠ b.year then decide (a.year < b.year)
  else if a.month ≠ b.month then decide (a.month < b.month)
  else if a.day ≠ b.day then decide (a.day < b.day)
  else if a.hour ≠ b.hour then decide (a.hour < b.hour)
  else if a.minute ≠ b.minute then decide (a.minute < b.minute)
  else if a.second ≠ b.second then decide (a.second < b.second)
  else decide (a.microsecond ≤ b.microsecond)

/-- Numeric value of a run of decimal digit characters. -/
def digitsToNat (ds : List Char) : Nat :=
  ds.foldl (fun a c => a * 10 + (c.toNat - 48)) 0

/-- Match a maximal run of decimal digits at the head of `cs`, subject to a
validity test on the digit run.  This mirrors how the regular expressions of
CPython's `_strptime` behave for a numeric directive that is followed by a
non-digit literal in the format string: the run is maximal, and the
alternation constraints of each directive's regex reduce to a predicate on
the run's length and value. -/
def matchNum (valid : List Char → Bool) (cs : List Char) : Option (Nat × List Char) :=
  let ds := cs.takeWhile Char.isDigit
  if ds.isEmpty || !valid ds then none
  else some (digitsToNat ds, cs.dropWhile Char.isDigit)

/-- `%Y` directive: exactly four digits. -/
def validY (ds : List Char) : Bool := ds.length == 4

/-- `%m` directive: `1[0-2]|0[1-9]|[1-9]`. -/
def validMonth (ds : List Char) : Bool :=
  (ds.length == 1 && decide (1 ≤ digitsToNat ds)) ||
  (ds.length == 2 && decide (1 ≤ digitsToNat ds) && decide (digitsToNat ds ≤ 12))

/-- `%d` directive: `3[01]|[12]\d|0[1-9]|[1-9]`. -/
def validDay (ds : List Char) : Bool :=
  (ds.length == 1 && decide (1 ≤ digitsToNat ds)) ||
  (ds.length == 2 && decide (1 ≤ digitsToNat ds) && decide (digitsToNat ds ≤ 31))

/-- `%H` directive: `2[0-3]|[0-1]\d|\d`. -/
def validHour (ds : List Char) : Bool :=
  ds.length == 1 || (ds.length == 2 && decide (digitsToNat ds ≤ 23))

/-- `%M` directive: `[0-5]\d|\d`. -/
def validMinute (ds : List Char) : Bool :=
  ds.length == 1 || (ds.length == 2 && decide (digitsToNat ds ≤ 59))

/-- `%S` directive: `6[0-1]|[0-5]\d|\d` (the regex admits leap seconds,
which the `datetime` constructor then rejects). -/
def validSecond (ds : List Char) : Bool :=
  ds.length == 1 || (ds.length == 2 && decide (digitsToNat ds ≤ 61))

/-- Match one literal character of the format string.  CPython compiles the
format's regex with `re.IGNORECASE`, so letters match case-insensitively. -/
def expectCharCI (c : Char) (cs : List Char) : Option (List Char) :=
  match cs with
  | [] => none
  | x :: rest => if x = c ∨ x.toLower = c.toLower then some rest else none

/-- `%f` directive: one to six digits, padded on the right with zeros to a
microsecond count. -/
def matchFrac (cs : List Char) : Option (Nat × List Char) :=
  let ds := cs.takeWhile Char.isDigit
  if 1 ≤ ds.length ∧ ds.length ≤ 6 then
    some (digitsToNat ds * 10 ^ (6 - ds.length), cs.dropWhile Char.isDigit)
  else none

/-- Gregorian leap-year test, as in Python's `calendar.isleap`. -/
def isLeapYear (y : Nat) : Bool := y % 4 == 0 && (y % 100 != 0 || y % 400 == 0)

/-- Length of a month, as used by the `datetime` constructor's validation. -/
def daysInMonth (y m : Nat) : Nat :=
  if m = 2 then (if isLeapYear y then 29 else 28)
  else if m = 4 ∨ m = 6 ∨ m = 9 ∨ m = 11 then 30
  else 31

/-- The `datetime(...)` constructor: validates each component's range and
fails (raises `ValueError`, modelled as `none`) when out of range. -/
def datetimeNew (y mo d h mi s us : Nat) : Option PyDateTime :=
  if 1 ≤ y ∧ y ≤ 9999 ∧ 1 ≤ mo ∧ mo ≤ 12 ∧ 1 ≤ d ∧ d ≤ daysInMonth y mo ∧
     h ≤ 23 ∧ mi ≤ 59 ∧ s ≤ 59 ∧ us ≤ 999999 then
    some ⟨y, mo, d, h, mi, s, us⟩
  else none

/-- The final literal `Z` of both formats, then end of input (`strptime`
rejects unconverted trailing data). -/
def finishZ (cs : List Char) : Option Unit := do
  let rest ← expectCharCI 'Z' cs
  if rest.isEmpty then some () else none

/-- `datetime.strptime` for the two formats the program uses:
`"%Y-%m-%dT%H:%M:%S.%fZ"` when `withFrac` is `true`, and
`"%Y-%m-%dT%H:%M:%SZ"` otherwise.  `none` models `ValueError`. -/
def strptimeISO (withFrac : Bool) (s : String) : Option PyDateTime := do
  let cs0 := s.toList
  let (y, cs1) ← matchNum validY cs0
  let cs2 ← expectCharCI '-' cs1
  let (mo, cs3) ← matchNum validMonth cs2
  let cs4 ← expectCharCI '-' cs3
  let (d, cs5) ← matchNum validDay cs4
  let cs6 ← expectCharCI 'T' cs5
  let (h, cs7) ← matchNum validHour cs6
  let cs8 ← expectCharCI ':' cs7
  let (mi, cs9) ← matchNum validMinute cs8
  let cs10 ← expectCharCI ':' cs9
  let (sec, cs11) ← matchNum validSecond cs10
  let (us, cs12) ←
    if withFrac then do
      let csf ← expectCharCI '.' cs11
      matchFrac csf
    else
      some (0, cs11)
  let _ ← finishZ cs12
  datetimeNew y mo d h mi sec us

/-- `parse_date` from `scrape.py`: try the fractional-seconds format, and on
`ValueError` fall back to the format without fractional seconds.  A failure
of the second attempt is uncaught (`none` propagates to the caller). -/
def parse_date (date_str : String) : Option PyDateTime :=
  match strptimeISO true date_str with
  | some dt => some dt
  | none => strptimeISO false date_str

/-- Configured base URL (`BASE_URL` in `scrape.py`). -/
def BASE_URL : String := "https://discourse.onlinedegree.iitm.ac.in"

/-- Configured category identifier (`CATEGORY_ID` in `scrape.py`). -/
def CATEGORY_ID : Int := 34

/-- Lower bound of the configured date range (`DATE_FROM = datetime(2025, 1, 1)`). -/
def DATE_FROM : PyDateTime := ⟨2025, 1, 1, 0, 0, 0, 0⟩

/-- Upper bound of the configured date range (`DATE_TO = datetime(2025, 4, 14)`). -/
def DATE_TO : PyDateTime := ⟨2025, 4, 14, 0, 0, 0, 0⟩

/-- A topic summary as it appears in the `topics` array of a listing page.
Fields accessed with `topic[...]` in the source are required; fields accessed
with `topic.get(...)` are optional (`none` models an absent or null key). -/
structure Topic where
  id : Int
  slug : String
  title : Option String
  category_id : Option Int
  tags : Option (List String)
  created_at : String
  views : Option Int
  like_count : Option Int
deriving DecidableEq

/-- An entry of a post's `mentioned_users` array. -/
structure MentionedUser where
  username : Option String
deriving DecidableEq

/-- A post of a topic-detail payload's `post_stream.posts` array. -/
structure Post where
  id : Int
  post_number : Int
  username : Option String
  created_at : Option String
  updated_at : Option String
  reply_to_post_number : Option Int
  like_count : Option Int
  cooked : Option String
  mentioned_users : Option (List MentionedUser)
deriving DecidableEq

/-- A parsed topic-detail payload.  For the two accepted-answer fields the
outer `Option` is key presence (`none` = key absent) and the inner `Option`
is the value (`none` = JSON null), so that Python's `dict.get` with its
default argument is modelled exactly.  `posts` is `post_stream.posts`
(defaulted to `[]` by the source's `.get` chain). -/
structure TopicData where
  accepted_answer : Option (Option Int)
  accepted_answer_post_id : Option (Option Int)
  posts : List Post
deriving DecidableEq

/-- A normalized post record (`post_data` in the source). -/
structure PostData where
  topic_id : Int
  topic_title : String
  category_id : Option Int
  tags : List String
  post_id : Int
  post_number : Int
  author : String
  created_at : String
  updated_at : String
  reply_to_post_number : Option Int
  is_reply : Bool
  reply_count : Nat
  like_count : Int
  is_accepted_answer : Bool
  mentioned_users : List String
  url : String
  content : String
deriving DecidableEq

/-- The `topic_metadata` object of a per-topic output file. -/
structure TopicMetadata where
  topic_id : Int
  title : String
  slug : String
  category_id : Option Int
  tags : List String
  created_at : String
  posts_count : Nat
  views : Int
  like_count : Int
  url : String
deriving DecidableEq

/-- The content of one per-topic output file. -/
structure TopicFile where
  topic_metadata : TopicMetadata
  posts : List PostData
deriving DecidableEq

/-- The run summary (`scrape_summary.json`).  The wall-clock `scraped_at`
field is the one nondeterministic output and is not modelled. -/
structure Summary where
  date_from : PyDateTime
  date_to : PyDateTime
  total_topics : Nat
  total_posts : Nat
  category_id : Int
  base_url : String
  combined_posts : String
  individual_topics : List String
deriving DecidableEq

/-- The mutable state of the main loop of `scrape_posts`: the combined post
list, the processed-topic counter, and the per-topic files written so far
(filename paired with content, in write order). -/
structure LoopState where
  all_posts : List PostData
  processed_topics : Nat
  files : List (String × TopicFile)
deriving DecidableEq

/-- Everything a completed run produced: the combined file's content
(`all_posts`), the counter, the per-topic file writes, and the summary. -/
structure RunResult where
  all_posts : List PostData
  processed_topics : Nat
  files : List (String × TopicFile)
  summary : Summary
deriving DecidableEq

/-- The external world of one run: the listing pages (page `N` beyond the
provided list is an empty page), the parsed topic-detail payload by URL
(`none` = both parse attempts of that fetch fail), and the composed
`BeautifulSoup(...).get_text().strip()` text cleaner. -/
structure World where
  pages : List (List Topic)
  detail : String → Option TopicData
  clean : String → String

/-- Canonical topic-detail URL: `f"{BASE_URL}/t/{topic['slug']}/{topic['id']}.json"`. -/
def topicDetailUrl (topic : Topic) : String :=
  BASE_URL ++ "/t/" ++ topic.slug ++ "/" ++ toString topic.id ++ ".json"

/-- Per-topic output filename: `f"topic_{topic['id']}.json"`. -/
def topicFileName (topic : Topic) : String :=
  "topic_" ++ toString topic.id ++ ".json"

/-- Python truthiness of the resolved accepted-answer value
(`if accepted_answer_id`): `None` and `0` are falsy. -/
def pyTruthy (v : Option Int) : Bool :=
  match v with
  | none => false
  | some n => decide (n ≠ 0)

/-- `topic_data.get("accepted_answer", topic_data.get("accepted_answer_post_id"))`:
the `accepted_answer` key wins whenever it is present (even with a null
value); otherwise the `accepted_answer_post_id` key's value is used. -/
def acceptedAnswerId (td : TopicData) : Option Int :=
  td.accepted_answer.getD (td.accepted_answer_post_id.getD none)

/-- The reply-count dictionary (`reply_counter`), built by one pass over the
full post stream: every post with a reply-to reference increments the bucket
of the referenced post number. -/
def buildReplyCounter (posts : List Post) : Int → Nat :=
  posts.foldl
    (fun acc p =>
      match p.reply_to_post_number with
      | none => acc
      | some r => fun n => if n = r then acc n + 1 else acc n)
    (fun _ => 0)

/-- The body of the per-post loop: clean the cooked body, skip the post when
the cleaned text is empty, otherwise assemble the normalized record. -/
def mkPostData (clean : String → String) (topic : Topic) (posts : List Post)
    (accepted_answer_id : Option Int) (post : Post) : Option PostData :=
  let clean_content := clean (post.cooked.getD "")
  if clean_content = "" then none
  else some {
    topic_id := topic.id
    topic_title := topic.title.getD ""
    category_id := topic.category_id
    tags := topic.tags.getD []
    post_id := post.id
    post_number := post.post_number
    author := post.username.getD "unknown"
    created_at := post.created_at.getD ""
    updated_at := post.updated_at.getD ""
    reply_to_post_number := post.reply_to_post_number
    is_reply := post.reply_to_post_number.isSome
    reply_count := buildReplyCounter posts post.post_number
    like_count := post.like_count.getD 0
    is_accepted_answer :=
      match accepted_answer_id with
      | none => false
      | some v => if v = 0 then false else decide (post.id = v)
    mentioned_users := (post.mentioned_users.getD []).map (fun u => u.username.getD "")
    url := BASE_URL ++ "/t/" ++ topic.slug ++ "/" ++ toString topic.id ++ "/"
             ++ toString post.post_number
    content := clean_content }

/-- `topic_posts` for one topic: the surviving normalized records, in post
order. -/
def topicPostsOf (clean : String → String) (topic : Topic) (td : TopicData) :
    List PostData :=
  td.posts.filterMap (mkPostData clean topic td.posts (acceptedAnswerId td))

/-- The `topic_metadata` object written for a topic whose `topic_posts` has
the given length. -/
def topicMetadataOf (topic : Topic) (posts_count : Nat) : TopicMetadata :=
  { topic_id := topic.id
    title := topic.title.getD ""
    slug := topic.slug
    category_id := topic.category_id
    tags := topic.tags.getD []
    created_at := topic.created_at
    posts_count := posts_count
    views := topic.views.getD 0
    like_count := topic.like_count.getD 0
    url := BASE_URL ++ "/t/" ++ topic.slug ++ "/" ++ toString topic.id }

/-- The content of the per-topic file for `topic`. -/
def topicFileOf (topic : Topic) (topic_posts : List PostData) : TopicFile :=
  ⟨topicMetadataOf topic topic_posts.length, topic_posts⟩

/-- The inclusive date-range test `DATE_FROM <= created_at <= DATE_TO`. -/
def inDateRange (d : PyDateTime) : Bool :=
  DATE_FROM.le d && d.le DATE_TO

/-- One iteration of the main topic loop.  `none` models an uncaught
exception (only `parse_date` can raise here); a detail-fetch failure or an
empty post stream leaves the state unchanged apart from the counter, which
is incremented for every in-range topic before the fetch is attempted. -/
def stepTopic (w : World) (st : LoopState) (topic : Topic) : Option LoopState :=
  match parse_date topic.created_at with
  | none => none
  | some created_at =>
    if inDateRange created_at then
      let st1 : LoopState := { st with processed_topics := st.processed_topics + 1 }
      match w.detail (topicDetailUrl topic) with
      | none => some st1
      | some topic_data =>
        let posts := topic_data.posts
        if posts.isEmpty then some st1
        else
          let accepted_answer_id := acceptedAnswerId topic_data
          let topic_posts := posts.filterMap (mkPostData w.clean topic posts accepted_answer_id)
          let st2 : LoopState := { st1 with all_posts := st1.all_posts ++ topic_posts }
          if topic_posts.isEmpty then some st2
          else some { st2 with
            files := st2.files ++ [(topicFileName topic, topicFileOf topic topic_posts)] }
    else some st

/-- The main topic loop, iterating `stepTopic` over the discovered topics. -/
def runTopics (w : World) : LoopState → List Topic → Option LoopState
  | st, [] => some st
  | st, t :: ts =>
    match stepTopic w st t with
    | none => none
    | some st2 => runTopics w st2 ts

/-- The pagination loop from page number `n` on: fetch pages until the first
page whose topic list is empty, returning the accumulated topics and the
trace of requested page numbers.  A page beyond the provided list is an
empty page (end of the category). -/
def fetchPagesFrom : List (List Topic) → Nat → List Topic × List Nat
  | [], n => ([], [n])
  | ts :: rest, n =>
    if ts.isEmpty then ([], [n])
    else
      let r := fetchPagesFrom rest (n + 1)
      (ts ++ r.1, n :: r.2)

/-- The topic-listing phase (`all_topics`, starting at `page=0`), together
with the trace of requested page numbers. -/
def listTopics (pages : List (List Topic)) : List Topic × List Nat :=
  fetchPagesFrom pages 0

/-- The summary's `individual_topics` list comprehension: re-parses every
discovered topic's creation timestamp (a `none` models the uncaught
`ValueError` aborting the run) and keeps in-range filenames. -/
def individualTopicsList : List Topic → Option (List String)
  | [] => some []
  | t :: ts =>
    match parse_date t.created_at with
    | none => none
    | some d =>
      match individualTopicsList ts with
      | none => none
      | some rest => some (if inDateRange d then topicFileName t :: rest else rest)

/-- `scrape_posts`: list all topics, run the main loop, then build the
summary.  `none` models an abort of the run by an uncaught exception. -/
def scrape_posts (w : World) : Option RunResult :=
  let all_topics := (listTopics w.pages).1
  match runTopics w ⟨[], 0, []⟩ all_topics with
  | none => none
  | some st =>
    match individualTopicsList all_topics with
    | none => none
    | some individual =>
      some { all_posts := st.all_posts
             processed_topics := st.processed_topics
             files := st.files
             summary := { date_from := DATE_FROM
                          date_to := DATE_TO
                          total_topics := st.processed_topics
                          total_posts := st.all_posts.length
                          category_id := CATEGORY_ID
                          base_url := BASE_URL
                          combined_posts := "discourse_posts.json"
                          individual_topics := individual } }

/-- A discovered topic is selected for processing iff its parsed creation
timestamp lies in the configured range (undefined-timestamp topics never
reach the selection test: the parse aborts the run first). -/
def selectedTopic (t : Topic) : Bool :=
  match parse_date t.created_at with
  | none => false
  | some d => inDateRange d

/-- What one selected topic contributes to the run's outputs: its records
for the combined list, and its per-topic file write (empty on a detail-fetch
failure, an empty post stream, or when no post survives cleaning). -/
def topicContribution (w : World) (topic : Topic) :
    List PostData × List (String × TopicFile) :=
  match w.detail (topicDetailUrl topic) with
  | none => ([], [])
  | some td =>
    let tps := topicPostsOf w.clean topic td
    (tps, if tps.isEmpty then [] else [(topicFileName topic, topicFileOf topic tps)])

/-- Index of the first empty listing page (`pages.length` when every
provided page is nonempty, matching the convention that pages beyond the
provided list are empty). -/
def firstEmptyPage : List (List Topic) → Nat
  | [] => 0
  | ts :: rest => if ts.isEmpty then 0 else firstEmptyPage rest + 1

/-- The closed form of a successful run's outputs: everything is determined
by the selected (in-range) discovered topics and their contributions. -/
def runResultOf (w : World) : RunResult :=
  let topics := (listTopics w.pages).1
  let sel := topics.filter selectedTopic
  { all_posts := sel.flatMap (fun t => (topicContribution w t).1)
    processed_topics := topics.countP selectedTopic
    files := sel.flatMap (fun t => (topicContribution w t).2)
    summary := { date_from := DATE_FROM
                 date_to := DATE_TO
                 total_topics := topics.countP selectedTopic
                 total_posts := (sel.flatMap (fun t => (topicContribution w t).1)).length
                 category_id := CATEGORY_ID
                 base_url := BASE_URL
                 combined_posts := "discourse_posts.json"
                 individual_topics := sel.map topicFileName } }

/-- An in-range topic used to exercise a failing detail fetch. -/
def topicA : Topic :=
  { id := 7, slug := "alpha", title := some "Alpha", category_id := some 34,
    tags := some [], created_at := "2025-02-01T00:00:00Z",
    views := some 10, like_count := some 0 }

/-- An in-range topic used to exercise an empty post stream. -/
def topicB : Topic :=
  { id := 5, slug := "beta", title := none, category_id := none,
    tags := none, created_at := "2025-02-02T00:00:00Z",
    views := none, like_count := none }

/-- An in-range topic with a normal post stream. -/
def topicC : Topic :=
  { id := 9, slug := "gamma", title := some "Gamma", category_id := some 34,
    tags := some ["tds"], created_at := "2025-03-01T00:00:00Z",
    views := some 5, like_count := some 1 }

/-- A topic created exactly at the lower bound of the date range. -/
def topicLo : Topic :=
  { id := 1, slug := "lo", title := none, category_id := none,
    tags := none, created_at := "2025-01-01T00:00:00Z",
    views := none, like_count := none }

/-- A topic created exactly at the upper bound of the date range. -/
def topicHi : Topic :=
  { id := 2, slug := "hi", title := none, category_id := none,
    tags := none, created_at := "2025-04-14T00:00:00Z",
    views := none, like_count := none }

/-- A topic created one second before the lower bound. -/
def topicBelow : Topic :=
  { id := 3, slug := "below", title := none, category_id := none,
    tags := none, created_at := "2024-12-31T23:59:59Z",
    views := none, like_count := none }

/-- A topic created one microsecond after the upper bound. -/
def topicAbove : Topic :=
  { id := 4, slug := "above", title := none, category_id := none,
    tags := none, created_at := "2025-04-14T00:00:00.000001Z",
    views := none, like_count := none }

/-- A topic whose creation timestamp matches neither accepted format. -/
def topicBad : Topic :=
  { id := 6, slug := "bad", title := none, category_id := none,
    tags := none, created_at := "not-a-timestamp",
    views := none, like_count := none }

/-- A topic with a well-formed timestamp far outside the date range. -/
def topicOld : Topic :=
  { id := 8, slug := "old", title := none, category_id := none,
    tags := none, created_at := "2020-06-01T12:00:00Z",
    views := none, like_count := none }

/-- First post of `topicC`: the accepted answer, replied to twice. -/
def postP1 : Post :=
  { id := 101, post_number := 1, username := some "alice",
    created_at := some "2025-03-01T01:00:00Z", updated_at := none,
    reply_to_post_number := none, like_count := some 3,
    cooked := some "hello", mentioned_users := none }

/-- Second post of `topicC`: a reply to post number 1. -/
def postP2 : Post :=
  { id := 102, post_number := 2, username := some "bob",
    created_at := none, updated_at := none,
    reply_to_post_number := some 1, like_count := none,
    cooked := some "world", mentioned_users := some [⟨some "alice"⟩] }

/-- Third post of `topicC`: a reply whose cleaned body is empty (skipped). -/
def postP3 : Post :=
  { id := 103, post_number := 3, username := none,
    created_at := none, updated_at := none,
    reply_to_post_number := some 1, like_count := none,
    cooked := some "", mentioned_users := none }

/-- Detail payload of `topicC`: the accepted answer is declared only through
the second candidate field. -/
def td3 : TopicData :=
  { accepted_answer := none, accepted_answer_post_id := some (some 101),
    posts := [postP1, postP2, postP3] }

/-- World in which the single in-range topic's detail fetch fails. -/
def W1 : World :=
  { pages := [[topicA]], detail := fun _ => none, clean := fun s => s }

/-- World in which the single in-range topic has an empty post stream. -/
def W2 : World :=
  { pages := [[topicB]],
    detail := fun u => if u = topicDetailUrl topicB then some ⟨none, none, []⟩ else none,
    clean := fun s => s }

/-- World in which the single in-range topic processes normally. -/
def W3 : World :=
  { pages := [[topicC]],
    detail := fun u => if u = topicDetailUrl topicC then some td3 else none,
    clean := fun s => s }

/-- World whose only listed topic has a malformed creation timestamp. -/
def W4 : World :=
  { pages := [[topicBad]], detail := fun _ => none, clean := fun s => s }

/-- World listing an out-of-range topic followed by a malformed-timestamp
topic. -/
def W5 : World :=
  { pages := [[topicOld, topicBad]], detail := fun _ => none, clean := fun s => s }

/-- The normalized record the pipeline produces for `postP1` of `topicC`. -/
def recC1 : PostData :=
  { topic_id := 9, topic_title := "Gamma", category_id := some 34,
    tags := ["tds"], post_id := 101, post_number := 1, author := "alice",
    created_at := "2025-03-01T01:00:00Z", updated_at := "",
    reply_to_post_number := none, is_reply := false, reply_count := 2,
    like_count := 3, is_accepted_answer := true, mentioned_users := [],
    url := BASE_URL ++ "/t/gamma/9/1", content := "hello" }

/-- Concrete listing used for the C7 witness: the third page is empty, a
later page is not. -/
def pagesW : List (List Topic) := [[topicA], [topicB], [], [topicC]]

/-- Detail payload declaring both accepted-answer fields, used to witness
first-present-wins resolution. -/
def tdBoth : TopicData :=
  { accepted_answer := some (some 55), accepted_answer_post_id := some (some 66),
    posts := [] }

example : parse_date "2025-01-01T00:00:00Z" = some ⟨2025, 1, 1, 0, 0, 0, 0⟩ := by decide

example : parse_date "2025-03-05T06:07:08.123456Z" = some ⟨2025, 3, 5, 6, 7, 8, 123456⟩ := by decide

example : parse_date "2025-03-05T06:07:08.5Z" = some ⟨2025, 3, 5, 6, 7, 8, 500000⟩ := by decide

example : parse_date "2025-02-30T06:07:08Z" = none := by decide

example : parse_date "garbage" = none := by decide

example : parse_date "2025-03-05T06:07:08.1234567Z" = none := by decide

lemma stepTopic_eq_none (w : World) (st : LoopState) (t : Topic)
    (h : parse_date t.created_at = none) : stepTopic w st t = none := by
  unfold stepTopic; rw [h]

lemma stepTopic_eq_some (w : World) (st : LoopState) (t : Topic) (d : PyDateTime)
    (h : parse_date t.created_at = some d) :
    stepTopic w st t = some (if inDateRange d then
      { all_posts := st.all_posts ++ (topicContribution w t).1
        processed_topics := st.processed_topics + 1
        files := st.files ++ (topicContribution w t).2 }
    else st) := by
  unfold stepTopic topicContribution topicPostsOf
  rw [h]
  cases hr : inDateRange d with
  | false => simp [hr]
  | true =>
    cases hd : w.detail (topicDetailUrl t) with
    | none => simp [hr, hd]
    | some td =>
      cases hposts : td.posts with
      | nil => simp [hr, hd, hposts]
      | cons p ps =>
        cases htps : (p :: ps).filterMap
            (mkPostData w.clean t (p :: ps) (acceptedAnswerId td)) with
        | nil => simp [hr, hd, hposts, htps]
        | cons q qs => simp [hr, hd, hposts, htps]

lemma runTopics_cons_some (w : World) (st st2 : LoopState) (t : Topic) (ts : List Topic)
    (h : stepTopic w st t = some st2) :
    runTopics w st (t :: ts) = runTopics w st2 ts := by
  conv_lhs => rw [runTopics]
  rw [h]

lemma runTopics_cons_none (w : World) (st : LoopState) (t : Topic) (ts : List Topic)
    (h : stepTopic w st t = none) :
    runTopics w st (t :: ts) = none := by
  conv_lhs => rw [runTopics]
  rw [h]

lemma runTopics_ok (topics : List Topic) (w : World) (st : LoopState)
    (h : ∀ t ∈ topics, (parse_date t.created_at).isSome) :
    runTopics w st topics = some
      { all_posts := st.all_posts ++
          (topics.filter selectedTopic).flatMap (fun t => (topicContribution w t).1)
        processed_topics := st.processed_topics + topics.countP selectedTopic
        files := st.files ++
          (topics.filter selectedTopic).flatMap (fun t => (topicContribution w t).2) } := by
  induction topics generalizing st with
  | nil => simp [runTopics]
  | cons t ts ih =>
    obtain ⟨d, hd⟩ := Option.isSome_iff_exists.mp (h t (List.mem_cons_self t ts))
    have hseld : selectedTopic t = inDateRange d := by
      unfold selectedTopic; rw [hd]
    have htail : ∀ x ∈ ts, (parse_date x.created_at).isSome :=
      fun x hx => h x (List.mem_cons_of_mem _ hx)
    cases hsel : selectedTopic t with
    | true =>
      have hr : inDateRange d = true := by rw [← hseld, hsel]
      have hstep : stepTopic w st t = some
          { all_posts := st.all_posts ++ (topicContribution w t).1
            processed_topics := st.processed_topics + 1
            files := st.files ++ (topicContribution w t).2 } := by
        rw [stepTopic_eq_some w st t d hd, hr, if_pos rfl]
      rw [runTopics_cons_some w st _ t ts hstep, ih _ htail]
      simp only [Option.some.injEq, LoopState.mk.injEq]
      refine ⟨?_, ?_, ?_⟩
      · simp [List.filter_cons, hsel, List.append_assoc]
      · simp [List.countP_cons, hsel]; omega
      · simp [List.filter_cons, hsel, List.append_assoc]
    | false =>
      have hr : inDateRange d = false := by rw [← hseld, hsel]
      have hstep : stepTopic w st t = some st := by
        rw [stepTopic_eq_some w st t d hd, hr, if_neg (by simp)]
      rw [runTopics_cons_some w st st t ts hstep, ih _ htail]
      simp only [Option.some.injEq, LoopState.mk.injEq]
      refine ⟨?_, ?_, ?_⟩
      · simp [List.filter_cons, hsel]
      · simp [List.countP_cons, hsel]
      · simp [List.filter_cons, hsel]

lemma runTopics_fail (topics : List Topic) (w : World) (st : LoopState)
    (h : ∃ t ∈ topics, parse_date t.created_at = none) :
    runTopics w st topics = none := by
  induction topics generalizing st with
  | nil => simp at h
  | cons t ts ih =>
    obtain ⟨x, hx, hpx⟩ := h
    rcases List.mem_cons.mp hx with hxt | hxts
    · subst hxt
      exact runTopics_cons_none w st x ts (stepTopic_eq_none w st x hpx)
    · cases hp : parse_date t.created_at with
      | none => exact runTopics_cons_none w st t ts (stepTopic_eq_none w st t hp)
      | some d =>
        cases hr : inDateRange d with
        | true =>
          have hstep : stepTopic w st t = some
              { all_posts := st.all_posts ++ (topicContribution w t).1
                processed_topics := st.processed_topics + 1
                files := st.files ++ (topicContribution w t).2 } := by
            rw [stepTopic_eq_some w st t d hp, hr, if_pos rfl]
          rw [runTopics_cons_some w st _ t ts hstep]
          exact ih _ ⟨x, hxts, hpx⟩
        | false =>
          have hstep : stepTopic w st t = some st := by
            rw [stepTopic_eq_some w st t d hp, hr, if_neg (by simp)]
          rw [runTopics_cons_some w st st t ts hstep]
          exact ih _ ⟨x, hxts, hpx⟩

lemma individualTopicsList_ok (topics : List Topic)
    (h : ∀ t ∈ topics, (parse_date t.created_at).isSome) :
    individualTopicsList topics =
      some ((topics.filter selectedTopic).map topicFileName) := by
  induction topics with
  | nil => simp [individualTopicsList]
  | cons t ts ih =>
    obtain ⟨d, hd⟩ := Option.isSome_iff_exists.mp (h t (List.mem_cons_self t ts))
    have hseld : selectedTopic t = inDateRange d := by
      unfold selectedTopic; rw [hd]
    rw [individualTopicsList, hd, ih (fun x hx => h x (List.mem_cons_of_mem _ hx))]
    cases hsel : selectedTopic t with
    | true =>
      have hr : inDateRange d = true := by rw [← hseld, hsel]
      simp [hr, List.filter_cons, hsel]
    | false =>
      have hr : inDateRange d = false := by rw [← hseld, hsel]
      simp [hr, List.filter_cons, hsel]

lemma individualTopicsList_fail (topics : List Topic)
    (h : ∃ t ∈ topics, parse_date t.created_at = none) :
    individualTopicsList topics = none := by
  induction topics with
  | nil => simp at h
  | cons t ts ih =>
    obtain ⟨x, hx, hpx⟩ := h
    rcases List.mem_cons.mp hx with hxt | hxts
    · subst hxt
      rw [individualTopicsList, hpx]
    · cases hp : parse_date t.created_at with
      | none => rw [individualTopicsList, hp]
      | some d => rw [individualTopicsList, hp, ih ⟨x, hxts, hpx⟩]

lemma foldl_replyCounter (posts : List Post) (acc : Int → Nat) (n : Int) :
    (posts.foldl
      (fun acc p =>
        match p.reply_to_post_number with
        | none => acc
        | some r => fun m => if m = r then acc m + 1 else acc m)
      acc) n
    = acc n + posts.countP (fun q => q.reply_to_post_number == some n) := by
  induction posts generalizing acc with
  | nil => simp
  | cons p ps ih =>
    rw [List.foldl_cons, ih, List.countP_cons]
    cases hp : p.reply_to_post_number with
    | none => simp [hp]
    | some r =>
      by_cases hn : n = r
      · subst hn
        simp [hp]
        omega
      · simp [hp, hn]
        omega

/-- The reply-count dictionary lookup agrees with the declarative count:
the number of posts in the stream whose reply-to reference equals `n`. -/
lemma buildReplyCounter_apply (posts : List Post) (n : Int) :
    buildReplyCounter posts n
      = posts.countP (fun q => q.reply_to_post_number == some n) := by
  unfold buildReplyCounter
  rw [foldl_replyCounter]
  simp

lemma range_map_add (m n : Nat) :
    (List.range (m + 1)).map (fun i => n + i)
      = n :: (List.range m).map (fun i => n + 1 + i) := by
  rw [List.range_succ_eq_map, List.map_cons, List.map_map]
  have hc : ((fun i => n + i) ∘ Nat.succ) = (fun i => n + 1 + i) := by
    funext i
    simp [Function.comp]
    omega
  rw [hc]
  simp

lemma fetchPagesFrom_eq (pages : List (List Topic)) (n : Nat) :
    fetchPagesFrom pages n =
      ((pages.take (firstEmptyPage pages)).flatten,
       (List.range (firstEmptyPage pages + 1)).map (fun i => n + i)) := by
  induction pages generalizing n with
  | nil => simp [fetchPagesFrom, firstEmptyPage, show List.range 1 = [0] from rfl]
  | cons ts rest ih =>
    cases hts : ts.isEmpty with
    | true =>
      rw [fetchPagesFrom, if_pos hts]
      simp [firstEmptyPage, hts, show List.range 1 = [0] from rfl]
    | false =>
      rw [fetchPagesFrom, if_neg (by simp [hts])]
      rw [ih (n + 1)]
      simp only [firstEmptyPage, hts, Bool.false_eq_true, if_false]
      rw [range_map_add (firstEmptyPage rest + 1) n]
      simp [List.take_succ_cons]

lemma listTopics_eq (pages : List (List Topic)) :
    listTopics pages =
      ((pages.take (firstEmptyPage pages)).flatten,
       List.range (firstEmptyPage pages + 1)) := by
  unfold listTopics
  rw [fetchPagesFrom_eq]
  have hid : (List.range (firstEmptyPage pages + 1)).map (fun i => 0 + i)
      = List.range (firstEmptyPage pages + 1) := by
    simp
  rw [hid]

lemma firstEmptyPage_before (pages : List (List Topic)) :
    ∀ i, i < firstEmptyPage pages → pages.getD i [] ≠ [] := by
  induction pages with
  | nil => intro i hi; simp [firstEmptyPage] at hi
  | cons ts rest ih =>
    intro i hi
    cases hts : ts.isEmpty with
    | true => rw [firstEmptyPage, if_pos hts] at hi; omega
    | false =>
      rw [firstEmptyPage, if_neg (by simp [hts])] at hi
      cases i with
      | zero => simpa using (by simpa using hts : ¬ ts = [])
      | succ j => simpa using ih j (by omega)

lemma firstEmptyPage_at (pages : List (List Topic)) :
    pages.getD (firstEmptyPage pages) [] = [] := by
  induction pages with
  | nil => simp [firstEmptyPage]
  | cons ts rest ih =>
    cases hts : ts.isEmpty with
    | true =>
      rw [firstEmptyPage, if_pos hts]
      simpa using hts
    | false =>
      rw [firstEmptyPage, if_neg (by simp [hts])]
      simpa using ih

lemma scrape_posts_ok (w : World)
    (h : ∀ t ∈ (listTopics w.pages).1, (parse_date t.created_at).isSome) :
    scrape_posts w = some (runResultOf w) := by
  unfold scrape_posts runResultOf
  dsimp only
  rw [runTopics_ok _ w _ h, individualTopicsList_ok _ h]
  simp

lemma scrape_posts_fail (w : World)
    (h : ∃ t ∈ (listTopics w.pages).1, parse_date t.created_at = none) :
    scrape_posts w = none := by
  unfold scrape_posts
  dsimp only
  rw [runTopics_fail _ w _ h]

lemma scrape_posts_eq_runResultOf (w : World) (r : RunResult)
    (h : scrape_posts w = some r) : r = runResultOf w := by
  by_cases hall : ∀ t ∈ (listTopics w.pages).1, (parse_date t.created_at).isSome
  · rw [scrape_posts_ok w hall] at h
    exact (Option.some.inj h).symm
  · exfalso
    obtain ⟨t, ht, hnone⟩ : ∃ t ∈ (listTopics w.pages).1, parse_date t.created_at = none := by
      push_neg at hall
      obtain ⟨t, ht, hx⟩ := hall
      exact ⟨t, ht, Option.not_isSome_iff_eq_none.mp hx⟩
    rw [scrape_posts_fail w ⟨t, ht, hnone⟩] at h
    cases h

lemma scrape_posts_some_parses (w : World) (r : RunResult)
    (h : scrape_posts w = some r) :
    ∀ t ∈ (listTopics w.pages).1, (parse_date t.created_at).isSome := by
  by_cases hall : ∀ t ∈ (listTopics w.pages).1, (parse_date t.created_at).isSome
  · exact hall
  · exfalso
    push_neg at hall
    obtain ⟨t, ht, hx⟩ := hall
    rw [scrape_posts_fail w ⟨t, ht, Option.not_isSome_iff_eq_none.mp hx⟩] at h
    cases h

example : topicPostsOf W3.clean topicC td3 ≠ [] := by decide

example : (topicPostsOf W3.clean topicC td3).head? = some recC1 := by decide

lemma mkPostData_some (clean : String → String) (topic : Topic) (posts : List Post)
    (acc : Option Int) (p : Post) (rec : PostData)
    (h : mkPostData clean topic posts acc p = some rec) :
    rec.content ≠ ""
    ∧ rec.post_number = p.post_number
    ∧ rec.post_id = p.id
    ∧ rec.reply_count = buildReplyCounter posts p.post_number := by
  simp only [mkPostData] at h
  by_cases hc : clean (p.cooked.getD "") = ""
  · rw [if_pos hc] at h
    cases h
  · rw [if_neg hc] at h
    have hrec := Option.some.inj h
    subst hrec
    exact ⟨hc, rfl, rfl, rfl⟩

lemma mkPostData_accepted_none (clean : String → String) (topic : Topic)
    (posts : List Post) (p : Post) (rec : PostData)
    (h : mkPostData clean topic posts none p = some rec) :
    rec.is_accepted_answer = false := by
  simp only [mkPostData] at h
  by_cases hc : clean (p.cooked.getD "") = ""
  · rw [if_pos hc] at h
    cases h
  · rw [if_neg hc] at h
    have hrec := Option.some.inj h
    subst hrec
    rfl

lemma mkPostData_accepted (clean : String → String) (topic : Topic)
    (posts : List Post) (acc : Option Int) (p : Post) (rec : PostData)
    (h : mkPostData clean topic posts acc p = some rec)
    (hacc : rec.is_accepted_answer = true) :
    ∃ v, acc = some v ∧ v ≠ 0 ∧ p.id = v := by
  cases acc with
  | none =>
    rw [mkPostData_accepted_none clean topic posts p rec h] at hacc
    cases hacc
  | some v =>
    simp only [mkPostData] at h
    by_cases hc : clean (p.cooked.getD "") = ""
    · rw [if_pos hc] at h
      cases h
    · rw [if_neg hc] at h
      have hrec := Option.some.inj h
      subst hrec
      simp only at hacc
      by_cases hv : v = 0
      · rw [if_pos hv] at hacc
        cases hacc
      · rw [if_neg hv] at hacc
        exact ⟨v, rfl, hv, of_decide_eq_true hacc⟩

lemma mem_contribution_fst (w : World) (t : Topic) (rec : PostData)
    (h : rec ∈ (topicContribution w t).1) :
    ∃ td, w.detail (topicDetailUrl t) = some td
      ∧ rec ∈ topicPostsOf w.clean t td := by
  unfold topicContribution at h
  cases hdet : w.detail (topicDetailUrl t) with
  | none => rw [hdet] at h; simp at h
  | some td =>
    rw [hdet] at h
    exact ⟨td, rfl, by simpa using h⟩

lemma mem_contribution_snd (w : World) (t : Topic) (f : String × TopicFile)
    (h : f ∈ (topicContribution w t).2) :
    ∃ td, w.detail (topicDetailUrl t) = some td
      ∧ topicPostsOf w.clean t td ≠ []
      ∧ f = (topicFileName t, topicFileOf t (topicPostsOf w.clean t td)) := by
  unfold topicContribution at h
  cases hdet : w.detail (topicDetailUrl t) with
  | none => rw [hdet] at h; simp at h
  | some td =>
    rw [hdet] at h
    simp only at h
    split at h
    · simp at h
    · next hne => exact ⟨td, rfl, by simpa using hne, by simpa using h⟩

lemma countP_id_le_one (posts : List Post) (v : Int)
    (h : (posts.map Post.id).Nodup) :
    posts.countP (fun p => p.id == v) ≤ 1 := by
  induction posts with
  | nil => simp
  | cons p ps ih =>
    rw [List.map_cons, List.nodup_cons] at h
    rw [List.countP_cons]
    by_cases hv : p.id = v
    · have hz : ps.countP (fun q => q.id == v) = 0 := by
        rw [List.countP_eq_zero]
        intro q hq hbq
        have : q.id = v := by simpa using hbq
        exact h.1 (by
          rw [← hv] at this
          exact this ▸ List.mem_map_of_mem Post.id hq)
      simp [hv, hz]
    · have := ih h.2
      simp [hv]
      omega

lemma files_sum_eq (w : World) (ts : List Topic) :
    ((ts.flatMap (fun t => (topicContribution w t).2)).map
        (fun f => f.2.posts.length)).sum
      = (ts.flatMap (fun t => (topicContribution w t).1)).length := by
  induction ts with
  | nil => simp
  | cons t ts ih =>
    simp only [List.flatMap_cons, List.map_append, List.sum_append,
               List.length_append, ih]
    congr 1
    unfold topicContribution
    cases hdet : w.detail (topicDetailUrl t) with
    | none => simp
    | some td =>
      simp only
      cases htps : (topicPostsOf w.clean t td).isEmpty with
      | true => simp [List.isEmpty_iff.mp htps]
      | false => simp [topicFileOf]

/-- C7: the topic listing requests pages 0, 1, 2, … in order and returns the
concatenation, in page order, of each page's topics; it stops at the first
page whose topic list is empty (treated as end of pagination, not an error)
and requests no page after that one. -/
theorem claim_C7 : ∀ pages : List (List Topic),
    listTopics pages
      = ((pages.take (firstEmptyPage pages)).flatten,
         List.range (firstEmptyPage pages + 1))
    ∧ (∀ i, i < firstEmptyPage pages → pages.getD i [] ≠ [])
    ∧ pages.getD (firstEmptyPage pages) [] = [] :=
  fun pages =>
    ⟨listTopics_eq pages, firstEmptyPage_before pages, firstEmptyPage_at pages⟩

/-- C7 witness: on a concrete four-page listing whose third page is empty,
pagination returns the first two pages' topics, requests exactly pages
0, 1, 2, and never requests the nonempty page after the empty one. -/
theorem claim_C7_witness :
    listTopics pagesW = ([topicA, topicB], [0, 1, 2])
    ∧ pagesW.getD 1 [] ≠ []
    ∧ pagesW.getD (firstEmptyPage pagesW) [] = [] := by
  refine ⟨?_, (claim_C7 pagesW).2.1 1 (by decide), (claim_C7 pagesW).2.2⟩
  rw [(claim_C7 pagesW).1]
  decide

/-- C8: timestamp parsing accepts a creation timestamp both with and without
fractional seconds, rejects an input matching neither format, and such a
failure on any discovered topic propagates and terminates the run instead of
being recovered per-topic. -/
theorem claim_C8 :
    parse_date "2025-03-05T06:07:08.123456Z" = some ⟨2025, 3, 5, 6, 7, 8, 123456⟩
    ∧ parse_date "2025-03-05T06:07:08Z" = some ⟨2025, 3, 5, 6, 7, 8, 0⟩
    ∧ parse_date "05/03/2025 06:07:08" = none
    ∧ (∀ (w : World) (t : Topic), t ∈ (listTopics w.pages).1 →
        parse_date t.created_at = none → scrape_posts w = none) := by
  refine ⟨by decide, by decide, by decide, ?_⟩
  intro w t ht hp
  exact scrape_posts_fail w ⟨t, ht, hp⟩

/-- C8 witness: a run whose only listed topic has a malformed creation
timestamp aborts. -/
theorem claim_C8_witness : scrape_posts W4 = none :=
  claim_C8.2.2.2 W4 topicBad (by decide) (by decide)

/-- C3: a discovered topic is selected for processing iff its parsed
creation timestamp satisfies the inclusive bounds, topics created exactly at
either bound are included, topics just outside are excluded, and the
processed set (counter, combined records, per-topic files) is exactly the
in-range subset of the discovered topics. -/
theorem claim_C3 :
    (∀ (t : Topic) (d : PyDateTime), parse_date t.created_at = some d →
        (selectedTopic t = true ↔ (DATE_FROM.le d = true ∧ d.le DATE_TO = true)))
    ∧ selectedTopic topicLo = true
    ∧ selectedTopic topicHi = true
    ∧ selectedTopic topicBelow = false
    ∧ selectedTopic topicAbove = false
    ∧ (∀ (w : World) (r : RunResult), scrape_posts w = some r →
        r.processed_topics = (listTopics w.pages).1.countP selectedTopic
        ∧ r.all_posts = ((listTopics w.pages).1.filter selectedTopic).flatMap
            (fun t => (topicContribution w t).1)
        ∧ r.files = ((listTopics w.pages).1.filter selectedTopic).flatMap
            (fun t => (topicContribution w t).2)) := by
  refine ⟨?_, by decide, by decide, by decide, by decide, ?_⟩
  · intro t d h
    unfold selectedTopic
    rw [h]
    unfold inDateRange
    simp
  · intro w r h
    rw [scrape_posts_eq_runResultOf w r h]
    exact ⟨rfl, rfl, rfl⟩

/-- C3 witness: the boundary topic at the lower bound is selected, and on a
concrete successful run the counter equals the in-range count. -/
theorem claim_C3_witness :
    (selectedTopic topicLo = true
      ↔ (DATE_FROM.le DATE_FROM = true ∧ DATE_FROM.le DATE_TO = true))
    ∧ (runResultOf W3).processed_topics = (listTopics W3.pages).1.countP selectedTopic :=
  ⟨claim_C3.1 topicLo DATE_FROM (by decide),
   (claim_C3.2.2.2.2.2 W3 (runResultOf W3) (scrape_posts_ok W3 (by decide))).1⟩

/-- C1 counterexample: in a run whose single in-range topic's detail fetch
fails, the run completes with no per-topic file and no combined records, yet
the summary's total topic count is 1, not 0 — the count does not exclude the
failed topic. -/
theorem claim_C1_counterexample :
    (scrape_posts W1).map
        (fun r => (r.summary.total_topics, r.all_posts.length, r.files.length))
      = some (1, 0, 0)
    ∧ (scrape_posts W1).map (fun r => r.summary.total_topics) ≠ some 0 := by
  exact ⟨by decide, by decide⟩

/-- C1 (amended): when an in-range topic's detail fetch or parse fails, the
run continues, the topic contributes no per-topic file and no combined
records, but the summary's total processed-topic count still includes it
(the counter is incremented at selection, before the fetch is attempted). -/
theorem claim_C1 :
    (∀ (w : World) (t : Topic), w.detail (topicDetailUrl t) = none →
        topicContribution w t = ([], []))
    ∧ (∀ w : World, (∀ t ∈ (listTopics w.pages).1, (parse_date t.created_at).isSome) →
        (scrape_posts w).isSome)
    ∧ (∀ (w : World) (r : RunResult), scrape_posts w = some r →
        r.summary.total_topics = (listTopics w.pages).1.countP selectedTopic
        ∧ r.all_posts = ((listTopics w.pages).1.filter selectedTopic).flatMap
            (fun t => (topicContribution w t).1)
        ∧ r.files = ((listTopics w.pages).1.filter selectedTopic).flatMap
            (fun t => (topicContribution w t).2)) := by
  refine ⟨?_, ?_, ?_⟩
  · intro w t h
    unfold topicContribution
    rw [h]
  · intro w h
    rw [scrape_posts_ok w h]
    rfl
  · intro w r h
    rw [scrape_posts_eq_runResultOf w r h]
    exact ⟨rfl, rfl, rfl⟩

/-- C1 witness: in the fetch-failure world the failed topic's contribution
is empty, the run completes, and the summary count equals the in-range
count (here 1, including the failed topic). -/
theorem claim_C1_witness :
    topicContribution W1 topicA = ([], [])
    ∧ (scrape_posts W1).isSome = true
    ∧ (runResultOf W1).summary.total_topics = (listTopics W1.pages).1.countP selectedTopic :=
  ⟨claim_C1.1 W1 topicA rfl,
   claim_C1.2.1 W1 (by decide),
   (claim_C1.2.2 W1 (runResultOf W1) (scrape_posts_ok W1 (by decide))).1⟩

/-- C2 counterexample: in a run whose single in-range topic has an empty
post stream, no per-topic file is written, yet the summary's file list names
`topic_5.json` — the list is not the set of files actually written. -/
theorem claim_C2_counterexample :
    (scrape_posts W2).map
        (fun r => (r.summary.individual_topics, r.files.map Prod.fst))
      = some (["topic_5.json"], [])
    ∧ (scrape_posts W2).map
        (fun r => r.summary.individual_topics == r.files.map Prod.fst)
      = some false := by
  exact ⟨by decide, by decide⟩

/-- C2 (amended): the summary's per-topic file list is the filenames of all
in-range discovered topics; it contains the name of every per-topic file
actually written, but may also name topics for which no file was written
(detail-fetch failure, empty stream, or no surviving post). -/
theorem claim_C2 :
    ∀ (w : World) (r : RunResult), scrape_posts w = some r →
      r.summary.individual_topics
          = ((listTopics w.pages).1.filter selectedTopic).map topicFileName
      ∧ ∀ f ∈ r.files, f.1 ∈ r.summary.individual_topics := by
  intro w r h
  rw [scrape_posts_eq_runResultOf w r h]
  refine ⟨rfl, ?_⟩
  intro f hf
  simp only [runResultOf] at hf ⊢
  rw [List.mem_flatMap] at hf
  obtain ⟨t, ht, hmem⟩ := hf
  obtain ⟨td, hdet, hne, hfe⟩ := mem_contribution_snd w t f hmem
  exact List.mem_map.mpr ⟨t, ht, by rw [hfe]⟩

/-- C2 witness: on a concrete successful run that writes one file, the
summary list is exactly the in-range filenames and names the written file. -/
theorem claim_C2_witness :
    (runResultOf W3).summary.individual_topics
        = ((listTopics W3.pages).1.filter selectedTopic).map topicFileName
    ∧ (runResultOf W3).files.map Prod.fst = ["topic_9.json"] :=
  ⟨(claim_C2 W3 (runResultOf W3) (scrape_posts_ok W3 (by decide))).1, by decide⟩

/-- C4: every emitted normalized record's `reply_count` equals the number of
posts in the same topic's fetched post stream whose `reply_to_post_number`
equals the record's `post_number`; and every record of the combined output
arises from some fetched topic's stream this way. -/
theorem claim_C4 :
    (∀ (clean : String → String) (topic : Topic) (td : TopicData) (rec : PostData),
        rec ∈ topicPostsOf clean topic td →
        rec.reply_count = td.posts.countP
          (fun q => q.reply_to_post_number == some rec.post_number))
    ∧ (∀ (w : World) (r : RunResult), scrape_posts w = some r →
        ∀ rec ∈ r.all_posts, ∃ t ∈ (listTopics w.pages).1, ∃ td,
          w.detail (topicDetailUrl t) = some td
          ∧ rec ∈ topicPostsOf w.clean t td) := by
  constructor
  · intro clean topic td rec hrec
    unfold topicPostsOf at hrec
    rw [List.mem_filterMap] at hrec
    obtain ⟨p, hp, hmk⟩ := hrec
    obtain ⟨-, hpn, -, hrc⟩ := mkPostData_some _ _ _ _ _ _ hmk
    rw [hrc, hpn, buildReplyCounter_apply]
  · intro w r h rec hrec
    rw [scrape_posts_eq_runResultOf w r h] at hrec
    simp only [runResultOf] at hrec
    rw [List.mem_flatMap] at hrec
    obtain ⟨t, ht, hmem⟩ := hrec
    obtain ⟨td, hdet, hin⟩ := mem_contribution_fst w t rec hmem
    exact ⟨t, List.mem_of_mem_filter ht, td, hdet, hin⟩

/-- C4 witness: the concrete record for post 1 of `topicC` is emitted and
its reply count (2) equals the number of stream posts replying to post 1. -/
theorem claim_C4_witness :
    recC1 ∈ topicPostsOf W3.clean topicC td3
    ∧ recC1.reply_count = td3.posts.countP
        (fun q => q.reply_to_post_number == some recC1.post_number) :=
  ⟨by decide, claim_C4.1 W3.clean topicC td3 recC1 (by decide)⟩

/-- C5: every record of the combined output has nonempty cleaned content (a
post whose cleaned text is empty is never emitted), and each per-topic
file's `posts_count` equals the number of surviving records it contains, all
of which have nonempty content. -/
theorem claim_C5 :
    ∀ (w : World) (r : RunResult), scrape_posts w = some r →
      (∀ rec ∈ r.all_posts, rec.content ≠ "")
      ∧ (∀ f ∈ r.files,
          f.2.topic_metadata.posts_count = f.2.posts.length
          ∧ ∀ rec ∈ f.2.posts, rec.content ≠ "") := by
  intro w r h
  rw [scrape_posts_eq_runResultOf w r h]
  constructor
  · intro rec hrec
    simp only [runResultOf] at hrec
    rw [List.mem_flatMap] at hrec
    obtain ⟨t, ht, hmem⟩ := hrec
    obtain ⟨td, hdet, hin⟩ := mem_contribution_fst w t rec hmem
    unfold topicPostsOf at hin
    rw [List.mem_filterMap] at hin
    obtain ⟨p, hp, hmk⟩ := hin
    exact (mkPostData_some _ _ _ _ _ _ hmk).1
  · intro f hf
    simp only [runResultOf] at hf
    rw [List.mem_flatMap] at hf
    obtain ⟨t, ht, hmem⟩ := hf
    obtain ⟨td, hdet, hne, hfe⟩ := mem_contribution_snd w t f hmem
    subst hfe
    refine ⟨rfl, ?_⟩
    intro rec hrec
    simp only [topicFileOf] at hrec
    unfold topicPostsOf at hrec
    rw [List.mem_filterMap] at hrec
    obtain ⟨p, hp, hmk⟩ := hrec
    exact (mkPostData_some _ _ _ _ _ _ hmk).1

/-- C5 witness: on the concrete run, the emitted record has nonempty content
and the single written file's metadata count matches its record count. -/
theorem claim_C5_witness :
    recC1.content ≠ ""
    ∧ (runResultOf W3).files.map (fun f => f.2.topic_metadata.posts_count)
        = (runResultOf W3).files.map (fun f => f.2.posts.length) := by
  refine ⟨(claim_C5 W3 (runResultOf W3) (scrape_posts_ok W3 (by decide))).1 recC1 (by decide), ?_⟩
  decide

/-- C6: `is_accepted_answer` is true for at most one record per topic (post
ids being distinct in the stream), and only when the resolved accepted-answer
id is declared and truthy; the id is resolved from the two candidate fields
with first-present-wins precedence, and when neither field is present no
record is marked accepted. -/
theorem claim_C6 :
    ∀ (clean : String → String) (topic : Topic) (td : TopicData),
      ((td.posts.map Post.id).Nodup →
        (topicPostsOf clean topic td).countP (fun r => r.is_accepted_answer) ≤ 1)
      ∧ (∀ rec ∈ topicPostsOf clean topic td, rec.is_accepted_answer = true →
          ∃ v, acceptedAnswerId td = some v ∧ v ≠ 0 ∧ rec.post_id = v)
      ∧ (∀ v, td.accepted_answer = some v → acceptedAnswerId td = v)
      ∧ (td.accepted_answer = none → td.accepted_answer_post_id = none →
          ∀ rec ∈ topicPostsOf clean topic td, rec.is_accepted_answer = false) := by
  intro clean topic td
  refine ⟨?_, ?_, ?_, ?_⟩
  · intro hnodup
    unfold topicPostsOf
    rw [List.countP_filterMap]
    cases hacc : acceptedAnswerId td with
    | none =>
      have hz : td.posts.countP (fun p =>
          ((mkPostData clean topic td.posts none p).map
            (fun r => r.is_accepted_answer)).getD false) = 0 := by
        rw [List.countP_eq_zero]
        intro p hp hpred
        cases hmk : mkPostData clean topic td.posts none p with
        | none => rw [hmk] at hpred; simp at hpred
        | some rec =>
          rw [hmk] at hpred
          simp at hpred
          rw [mkPostData_accepted_none clean topic td.posts p rec hmk] at hpred
          cases hpred
      rw [hz]
      exact Nat.zero_le 1
    | some v =>
      by_cases hv : v = 0
      · have hz : td.posts.countP (fun p =>
            ((mkPostData clean topic td.posts (some v) p).map
              (fun r => r.is_accepted_answer)).getD false) = 0 := by
          rw [List.countP_eq_zero]
          intro p hp hpred
          cases hmk : mkPostData clean topic td.posts (some v) p with
          | none => rw [hmk] at hpred; simp at hpred
          | some rec =>
            rw [hmk] at hpred
            simp at hpred
            obtain ⟨v2, hveq, hv2, -⟩ :=
              mkPostData_accepted clean topic td.posts (some v) p rec hmk hpred
            exact hv2 (by rw [← Option.some.inj hveq, hv])
        rw [hz]
        exact Nat.zero_le 1
      · refine le_trans (List.countP_mono_left ?_) (countP_id_le_one td.posts v hnodup)
        intro p hp hpred
        cases hmk : mkPostData clean topic td.posts (some v) p with
        | none => rw [hmk] at hpred; simp at hpred
        | some rec =>
          rw [hmk] at hpred
          simp at hpred
          obtain ⟨v2, hveq, hv2, hpid⟩ :=
            mkPostData_accepted clean topic td.posts (some v) p rec hmk hpred
          have hvv : v = v2 := Option.some.inj hveq
          subst hvv
          simpa using hpid
  · intro rec hrec htrue
    unfold topicPostsOf at hrec
    rw [List.mem_filterMap] at hrec
    obtain ⟨p, hp, hmk⟩ := hrec
    obtain ⟨v, hveq, hv, hpid⟩ :=
      mkPostData_accepted clean topic td.posts (acceptedAnswerId td) p rec hmk htrue
    have hrecpid : rec.post_id = p.id := (mkPostData_some _ _ _ _ _ _ hmk).2.2.1
    exact ⟨v, hveq, hv, by rw [hrecpid, hpid]⟩
  · intro v h
    unfold acceptedAnswerId
    rw [h]
    rfl
  · intro h1 h2 rec hrec
    have hacc : acceptedAnswerId td = none := by
      unfold acceptedAnswerId
      rw [h1, h2]
      rfl
    unfold topicPostsOf at hrec
    rw [List.mem_filterMap] at hrec
    obtain ⟨p, hp, hmk⟩ := hrec
    rw [hacc] at hmk
    exact mkPostData_accepted_none clean topic td.posts p rec hmk

/-- C6 witness: the concrete topic marks at most one record accepted, the
resolution of `td3` uses the second field (`accepted_answer_post_id`) when
the first is absent, and when both fields are present the first wins. -/
theorem claim_C6_witness :
    (topicPostsOf W3.clean topicC td3).countP (fun r => r.is_accepted_answer) ≤ 1
    ∧ acceptedAnswerId tdBoth = some 55
    ∧ acceptedAnswerId td3 = some 101 :=
  ⟨(claim_C6 W3.clean topicC td3).1 (by decide),
   (claim_C6 W3.clean topicC tdBoth).2.2.1 (some 55) rfl,
   by decide⟩

/-- C9: the number of records in the combined output equals the sum, over
all per-topic files written in the run, of the number of records in each
file's posts list; the summary's total post count is the combined length. -/
theorem claim_C9 :
    ∀ (w : World) (r : RunResult), scrape_posts w = some r →
      ((r.files.map (fun f => f.2.posts.length)).sum = r.all_posts.length)
      ∧ r.summary.total_posts = r.all_posts.length := by
  intro w r h
  rw [scrape_posts_eq_runResultOf w r h]
  exact ⟨files_sum_eq w ((listTopics w.pages).1.filter selectedTopic), rfl⟩

/-- C9 witness: on the concrete run the sum over file post counts equals the
combined count (both are 2). -/
theorem claim_C9_witness :
    ((runResultOf W3).files.map (fun f => f.2.posts.length)).sum
        = (runResultOf W3).all_posts.length
    ∧ (runResultOf W3).all_posts.length = 2 :=
  ⟨(claim_C9 W3 (runResultOf W3) (scrape_posts_ok W3 (by decide))).1, by decide⟩

/-- C10: timestamp parsing is applied to every discovered topic (a
successful run implies every listed topic parsed), the summary's file list
is built by re-parsing every discovered topic, and a malformed creation
timestamp on any listed topic — in range or not — aborts the entire run. -/
theorem claim_C10 :
    (∀ (w : World) (r : RunResult), scrape_posts w = some r →
        ∀ t ∈ (listTopics w.pages).1, (parse_date t.created_at).isSome)
    ∧ (∀ (w : World) (r : RunResult), scrape_posts w = some r →
        individualTopicsList (listTopics w.pages).1 = some r.summary.individual_topics)
    ∧ (∀ (w : World) (t : Topic), t ∈ (listTopics w.pages).1 →
        parse_date t.created_at = none → scrape_posts w = none) := by
  refine ⟨scrape_posts_some_parses, ?_, ?_⟩
  · intro w r h
    have hp := scrape_posts_some_parses w r h
    rw [individualTopicsList_ok _ hp, scrape_posts_eq_runResultOf w r h]
    rfl
  · intro w t ht hp
    exact scrape_posts_fail w ⟨t, ht, hp⟩

/-- C10 witness: a run listing an out-of-range topic followed by a
malformed-timestamp topic aborts, even though the malformed topic would
never be selected. -/
theorem claim_C10_witness :
    scrape_posts W5 = none ∧ selectedTopic topicOld = false :=
  ⟨claim_C10.2.2 W5 topicBad (by decide) (by decide), by decide⟩
